import Mathlib

/-!
# Verification of `thyming` (`src/thyming/timer.py`)

A shallow embedding in Lean 4 of the `Timer` stopwatch utility and its
message-formatting and logging policy, together with theorems settling the
spec claims.

Modelling conventions:

* Python in-place mutation is modelled by explicit state passing: every
  operation returns the post-state `Timer` together with an
  `Except TimerError _` result. A Python `raise` happens before any field
  assignment in the source, so the post-state on error is the input state.
* Clock reads (`perf_counter()`, `datetime.now()`) are oracles supplied by the
  caller through an `Env` record: one `Env` per operation call; the distinct
  clock reads inside a single call are modelled by the single ambient
  reading (no claim distinguishes them).
* The optional logging sink `logger: Optional[Callable[[str], None]]` is
  opaque to the core, so only its presence matters: `logger : Bool`, and the
  lines an operation would pass to the sink are returned as a `List String`.
* `float` time values are modelled as `ℚ`; no claim depends on binary
  floating-point behaviour.
* The Python `str.split("\n")` is modelled by `splitLines` below.
-/

namespace Thyming

/-- The two click actions, `Action = Literal["measure", "stop"]` in the
source (timer.py:35). -/
inductive Action where
  | measure
  | stop
deriving DecidableEq

/-- How the action renders inside an f-string. -/
def Action.render : Action → String
  | .measure => "measure"
  | .stop => "stop"

/-- `DefaultMessage` enum (timer.py:49-56): the three default-message
contexts START, MEASURE, END. -/
inductive DefaultMessage where
  | START
  | MEASURE
  | END
deriving DecidableEq

/-- `TimerMessage = Union[str, None, DefaultMessage]` (timer.py:59):
a literal string, Python `None` (omitted), or a default-message marker. -/
inductive TimerMessage where
  | literal (s : String)
  | omitted
  | defaultM (d : DefaultMessage)
deriving DecidableEq

/-- Python truthiness of a `TimerMessage` (`if click_message:` at
timer.py:98): `None` and the empty string are falsy, enum members truthy. -/
def TimerMessage.truthy : TimerMessage → Bool
  | .literal s => s != ""
  | .omitted => false
  | .defaultM _ => true

/-- Clock oracle for one operation call: the `perf_counter()` reading and
the two renderings of `datetime.now()` used by the source
(`isoformat()` for error timestamps, `isoformat` with separator T and
timespec seconds for
default messages). -/
structure Env where
  perf : ℚ
  nowIso : String
  nowIsoSec : String
deriving DecidableEq

/-- The error taxonomy (timer.py:14-47): `TimerAlreadyRunningError` carries
the rendered timer name and a timestamp; `TimerNotRunningError` additionally
carries the attempted `Action`. -/
inductive TimerError where
  | alreadyRunning (timer_name : String) (timestamp : String)
  | notRunning (timer_name : String) (timestamp : String) (action : Action)
deriving DecidableEq

/-- The rendered `message` field set in `__post_init__` of each error
(timer.py:28-32 and 43-47). Note the source wraps the action in backticks. -/
def TimerError.message : TimerError → String
  | .alreadyRunning n ts =>
      "[" ++ ts ++ "] Tried to start " ++ n ++ " but it was already running."
  | .notRunning n ts a =>
      "[" ++ ts ++ "] Tried to click `" ++ a.render ++ "` on " ++ n ++
        " but it wasn\x27t running."

/-- The message template `message: str` with its single insertion point
(default `"Elapsed time: {:0.4f} seconds."`, timer.py:74): the text before
and after the formatted elapsed value. -/
structure Template where
  pre : String
  post : String
deriving DecidableEq

/-- Zero-pad a fractional part to four digits. -/
def pad4 (n : Nat) : String :=
  if n < 10 then "000" ++ toString n
  else if n < 100 then "00" ++ toString n
  else if n < 1000 then "0" ++ toString n
  else toString n

/-- Models Python fixed-point formatting with four decimal places (format
spec `0.4f`) on the rational time values of this development: round to the
nearest ten-thousandth and render with exactly four fractional digits. -/
def formatFixed4 (q : ℚ) : String :=
  let n : Int := ⌊q * 10000 + 1 / 2⌋
  if n < 0 then
    "-" ++ toString ((-n) / 10000) ++ "." ++ pad4 (((-n) % 10000).toNat)
  else
    toString (n / 10000) ++ "." ++ pad4 ((n % 10000).toNat)

/-- `self.message.format(recorded_time)` (timer.py:126). -/
def Template.format (m : Template) (q : ℚ) : String :=
  m.pre ++ formatFixed4 q ++ m.post

/-- The default template `"Elapsed time: {:0.4f} seconds."` split at its
insertion point. -/
def defaultTemplate : Template :=
  { pre := "Elapsed time: ", post := " seconds." }

/-- Models the Python `msg.split("\n")` (timer.py:195) on the character
list of a string: split at every newline character; the empty string
yields `[[]]`, matching `"".split("\n") == [""]`. -/
def splitLinesList : List Char → List (List Char)
  | [] => [[]]
  | c :: cs =>
    if c = '\n' then [] :: splitLinesList cs
    else
      match splitLinesList cs with
      | [] => [[c]]
      | l :: ls => (c :: l) :: ls

/-- The Python `msg.split("\n")` on a `String`. -/
def splitLines (s : String) : List String :=
  (splitLinesList s.data).map String.mk

/-- Python truthiness of an optional string (`if msg_pre:` after default
resolution, timer.py:120): `None` and `""` are falsy. -/
def optStrTruthy : Option String → Bool
  | Option.none => false
  | some s => s != ""

/-- The `Timer` dataclass (timer.py:67-81). `logger` records only whether a
sink is present (default `logging.info`, i.e. present); `recorded_times`
holds the list contents by value (object identity of the list is treated in
the `Alias` namespace). -/
structure Timer where
  name : Option String := Option.none
  message : Template := defaultTemplate
  logger : Bool := true
  start_time : Option ℚ := Option.none
  recorded_times : List ℚ := []
deriving DecidableEq

/-- `Timer._timestamp_to_msg` (timer.py:83-91). -/
def timestampToMsg (d : DefaultMessage) (nowIsoSec : String) : String :=
  match d with
  | .START => "START: " ++ nowIsoSec
  | .MEASURE => "MEASURED: " ++ nowIsoSec
  | .END => "END: " ++ nowIsoSec

/-- Resolution of a `TimerMessage` into an optional string, as done at the
top of `_get_logging_message` (timer.py:116-119): default markers become
generated timestamp lines, literals and `None` pass through. -/
def TimerMessage.resolve (m : TimerMessage) (nowIsoSec : String) : Option String :=
  match m with
  | .literal s => some s
  | .omitted => Option.none
  | .defaultM d => some (timestampToMsg d nowIsoSec)

/-- `Timer._timer_name` (timer.py:103-107): the rendered name used in error
messages; an absent or empty name renders as `"Unnamed Timer"`. -/
def Timer.timerName (t : Timer) : String :=
  match t.name with
  | some n => if n != "" then "Timer(name=" ++ n ++ ")" else "Unnamed Timer"
  | Option.none => "Unnamed Timer"

/-- `Timer._get_logging_message` (timer.py:109-129): compose the message
logged by a click. A truthy resolved pre-message leads, else a truthy name
synthesizes `"<name>:"`, else no leading line; then the formatted body; then
a truthy resolved post-message trails. -/
def Timer.getLoggingMessage (t : Timer) (recorded_time : ℚ)
    (msg_pre msg_post : TimerMessage) (env : Env) : String :=
  let p1 := msg_pre.resolve env.nowIsoSec
  let p2 := msg_post.resolve env.nowIsoSec
  let head :=
    if optStrTruthy p1 then p1.getD "" ++ "\n"
    else if optStrTruthy (t.name) then t.name.getD "" ++ ":\n"
    else ""
  let msg := head ++ t.message.format recorded_time
  if optStrTruthy p2 then msg ++ "\n" ++ p2.getD "" else msg

/-- `Timer.log` (timer.py:186-197): the lines handed to the logging sink,
one invocation per line. No sink or `None` message yields nothing; a default
marker yields its single generated line; a literal is split at newlines.
The timer itself is returned unchanged by the source (`return self`). -/
def Timer.log (t : Timer) (env : Env) (msg : TimerMessage) : List String :=
  if t.logger = false then []
  else
    match msg with
    | .omitted => []
    | .defaultM d => [timestampToMsg d env.nowIsoSec]
    | .literal s => splitLines s

/-- `Timer.start` (timer.py:93-101): raise `TimerAlreadyRunningError` if
already running (state untouched), else record `perf_counter()` as
`start_time`, log a truthy click message when a sink is present, and return
`self`. The returned value inside `.ok` is the post-state (Python `self`). -/
def Timer.start (t : Timer) (env : Env) (click_message : TimerMessage) :
    Timer × Except TimerError (Timer × List String) :=
  match t.start_time with
  | some _ => (t, .error (.alreadyRunning t.timerName env.nowIso))
  | Option.none =>
    let t1 : Timer := { t with start_time := some env.perf }
    let lines := if click_message.truthy && t1.logger then t1.log env click_message else []
    (t1, .ok (t1, lines))

/-- `Timer._click` (timer.py:131-158): raise `TimerNotRunningError` if
stopped (state untouched); else compute the elapsed time, clear `start_time`
when `stop_timer`, append the sample, log the composed message when a sink
is present, and return the elapsed time. -/
def Timer.click (t : Timer) (env : Env) (stop_timer : Bool)
    (msg_pre msg_post : TimerMessage) (action : Action) :
    Timer × Except TimerError (ℚ × List String) :=
  match t.start_time with
  | Option.none => (t, .error (.notRunning t.timerName env.nowIso action))
  | some st =>
    let recorded_time := env.perf - st
    let t1 : Timer :=
      { t with
        start_time := if stop_timer then Option.none else some st
        recorded_times := t.recorded_times ++ [recorded_time] }
    let lines :=
      if t1.logger then
        t1.log env (.literal (t1.getLoggingMessage recorded_time msg_pre msg_post env))
      else []
    (t1, .ok (recorded_time, lines))

/-- `Timer.stop` (timer.py:160-171). -/
def Timer.stop (t : Timer) (env : Env) (msg_pre msg_post : TimerMessage) :
    Timer × Except TimerError (ℚ × List String) :=
  t.click env true msg_pre msg_post Action.stop

/-- `Timer.measure` (timer.py:173-184). -/
def Timer.measure (t : Timer) (env : Env) (msg_pre msg_post : TimerMessage) :
    Timer × Except TimerError (ℚ × List String) :=
  t.click env false msg_pre msg_post Action.measure

/-- `Timer.__enter__` (timer.py:204-205): calls `self.start()` with no
message and returns `None`, so the `as` target is bound to `none` even
though `start` itself returned the timer. -/
def Timer.enter (t : Timer) (env : Env) :
    Timer × Except TimerError (Option Timer × List String) :=
  match t.start env .omitted with
  | (t1, .error e) => (t1, .error e)
  | (t1, .ok (_, lines)) => (t1, .ok (Option.none, lines))

/-- `Timer.__exit__` (timer.py:207-214): if still running, `self.stop()`
with default (absent) messages; otherwise do nothing. `__exit__` returns
`None` (falsy), so any exception from the block propagates — modelled by
`Timer.scoped` passing the exception of the block through unchanged. -/
def Timer.exit (t : Timer) (env : Env) : Timer × List String :=
  match t.start_time with
  | Option.none => (t, [])
  | some _ =>
    match t.stop env .omitted .omitted with
    | (t2, .ok (_, lines)) => (t2, lines)
    | (_, .error _) => (t, [])

/-- `Timer.restart` (timer.py:216-221): `self.stop(msg_pre, msg_post)` then
`return self.start()`; an exception in either step propagates. The `.ok`
value is the return of `start` (`self`, the post-state) with the lines logged by
both steps. -/
def Timer.restart (t : Timer) (env1 env2 : Env)
    (msg_pre msg_post : TimerMessage) :
    Timer × Except TimerError (Timer × List String) :=
  match t.stop env1 msg_pre msg_post with
  | (t1, .error e) => (t1, .error e)
  | (t1, .ok (_, lines)) =>
    match t1.start env2 .omitted with
    | (t2, .error e) => (t2, .error e)
    | (t2, .ok (t3, lines2)) => (t2, .ok (t3, lines ++ lines2))

/-- `Timer.times` (timer.py:199-202): `return self.recorded_times`. At the
value level this is the current list of samples; object identity is treated
in the `Alias` namespace. -/
def Timer.times (t : Timer) : List ℚ :=
  t.recorded_times

/-- One scoped use (`with` block): `__enter__`, then the block — modelled as
a function from the timer state at entry to the state at its end paired with
the exception escaping it, if any — then `__exit__`. Since `__exit__`
returns `None`, the exception of the block propagates to the caller unchanged. -/
def Timer.scoped {ε : Type} (t : Timer) (envE envX : Env)
    (block : Timer → Timer × Option ε) :
    Timer × Except TimerError (Option ε × List String) :=
  match t.enter envE with
  | (t1, .error e) => (t1, .error e)
  | (t1, .ok _) =>
    let (t2, exc) := block t1
    let (t3, lines) := t2.exit envX
    (t3, .ok (exc, lines))

/-- One API call on a `Timer`, with the clock oracle(s) it consumes
(`restart` reads the clock once in its `stop` half and once in its `start`
half). Used to quantify over arbitrary operation sequences. -/
inductive Op where
  | start (env : Env) (m : TimerMessage)
  | measure (env : Env) (msg_pre msg_post : TimerMessage)
  | stop (env : Env) (msg_pre msg_post : TimerMessage)
  | restart (env1 env2 : Env) (msg_pre msg_post : TimerMessage)
  | log (env : Env) (m : TimerMessage)
  | enter (env : Env)
  | exitOp (env : Env)

/-- Observable return value of one call: `start`/`restart`/`log` return
`self` (the post-state, compared separately), `measure`/`stop` return the
elapsed time, `__enter__`/`__exit__` return `None`. -/
inductive Ret where
  | selfRet
  | elapsed (q : ℚ)
  | noneRet
deriving DecidableEq

/-- Execute one `Op`: post-state, result (or error), and logged lines. -/
def Timer.step (t : Timer) : Op → Timer × Except TimerError Ret × List String
  | .start env m =>
    match t.start env m with
    | (t1, .error e) => (t1, .error e, [])
    | (t1, .ok (_, lines)) => (t1, .ok .selfRet, lines)
  | .measure env p q =>
    match t.measure env p q with
    | (t1, .error e) => (t1, .error e, [])
    | (t1, .ok (x, lines)) => (t1, .ok (.elapsed x), lines)
  | .stop env p q =>
    match t.stop env p q with
    | (t1, .error e) => (t1, .error e, [])
    | (t1, .ok (x, lines)) => (t1, .ok (.elapsed x), lines)
  | .restart env1 env2 p q =>
    match t.restart env1 env2 p q with
    | (t1, .error e) => (t1, .error e, [])
    | (t1, .ok (_, lines)) => (t1, .ok .selfRet, lines)
  | .log env m => (t, .ok .selfRet, t.log env m)
  | .enter env =>
    match t.enter env with
    | (t1, .error e) => (t1, .error e, [])
    | (t1, .ok (_, lines)) => (t1, .ok .noneRet, lines)
  | .exitOp env =>
    match t.exit env with
    | (t1, lines) => (t1, .ok .noneRet, lines)

/-- Execute a sequence of `Op`s: final state, per-call results, and all
logged lines in order. -/
def Timer.run (t : Timer) : List Op → Timer × List (Except TimerError Ret) × List String
  | [] => (t, [], [])
  | op :: ops =>
    match t.step op with
    | (t1, r, lines) =>
      match t1.run ops with
      | (t2, rs, lines2) => (t2, r :: rs, lines ++ lines2)

/-- The two abstract timer states of the spec (§4.1). -/
inductive SpecState where
  | running
  | stopped
deriving DecidableEq

/-- Modelled from the spec: the abstract RUNNING/STOPPED state machine of
§4.1. `start` (and scoped entry): STOPPED → RUNNING, and from RUNNING it
fails leaving the state unchanged (still RUNNING) — so the result is always
RUNNING. `stop` (and scoped exit): RUNNING → STOPPED, and from STOPPED it
fails (exit: no-op) leaving STOPPED — always STOPPED. `measure` and `log`
never change the state. `restart` from RUNNING is stop-then-start, ending
RUNNING; from STOPPED it fails at the stop half, staying STOPPED — the
identity. -/
def specStep : SpecState → Op → SpecState
  | _, .start _ _ => .running
  | _, .enter _ => .running
  | _, .stop _ _ _ => .stopped
  | _, .exitOp _ => .stopped
  | s, .measure _ _ _ => s
  | s, .restart _ _ _ _ => s
  | s, .log _ _ => s

/-- Run of the abstract state machine of the spec. -/
def specRun (s : SpecState) (ops : List Op) : SpecState :=
  ops.foldl specStep s

/-- The abstraction function: a concrete timer with `start_time = None` is
in the STOPPED state of the spec, otherwise RUNNING. -/
def Timer.absState (t : Timer) : SpecState :=
  match t.start_time with
  | Option.none => .stopped
  | some _ => .running

namespace Alias

/-!
Object-identity model for the `times` accessor. Python lists are mutable
heap objects: the dataclass field `recorded_times` stores a reference to a
list object, and `times` (timer.py:199-202) does `return self.recorded_times`
— it returns that same object, not a copy. A heap fragment maps list-object
identities to list contents.
-/

/-- Heap fragment: list-object identity ↦ list contents. -/
def Heap : Type := Nat → List ℚ

/-- The reference-level view of the timer: the identity of the list object
stored in its `recorded_times` field (other fields are irrelevant to the
aliasing question). -/
structure TimerRef where
  recorded_times : Nat

/-- `Timer.times` at the reference level: `return self.recorded_times`
returns the stored list object itself (timer.py:202). -/
def TimerRef.times (t : TimerRef) : Nat :=
  t.recorded_times

/-- In-place mutation of a list object, e.g. `lst.append(x)`: only the cell
with that identity changes. -/
def Heap.appendAt (h : Heap) (r : Nat) (x : ℚ) : Heap :=
  fun r2 => if r2 = r then h r ++ [x] else h r2

end Alias

/-! ## Helper lemmas -/

theorem string_mk_data (s : String) : String.mk s.data = s := by
  cases s
  rfl

theorem string_data_append (s t : String) : (s ++ t).data = s.data ++ t.data := by
  cases s
  cases t
  rfl

theorem string_ne_empty_of_data {s : String} (h : s.data ≠ []) : s ≠ "" := by
  intro hs
  rw [hs] at h
  exact h rfl

theorem splitLinesList_no_nl (l : List Char) (h : '\n' ∉ l) :
    splitLinesList l = [l] := by
  induction l with
  | nil => rfl
  | cons c cs ih =>
    simp only [List.mem_cons, not_or] at h
    have hc : ¬ c = '\n' := fun hEq => h.1 hEq.symm
    have ihh := ih h.2
    simp [splitLinesList, hc, ihh]

theorem splitLinesList_append_nl (a b : List Char) (h : '\n' ∉ a) :
    splitLinesList (a ++ '\n' :: b) = a :: splitLinesList b := by
  induction a with
  | nil => simp [splitLinesList]
  | cons c cs ih =>
    simp only [List.mem_cons, not_or] at h
    have hc : ¬ c = '\n' := fun hEq => h.1 hEq.symm
    have ihh := ih h.2
    simp [splitLinesList, hc, ihh]

theorem splitLines_no_nl (s : String) (h : '\n' ∉ s.data) :
    splitLines s = [s] := by
  unfold splitLines
  rw [splitLinesList_no_nl s.data h]
  simp [string_mk_data]

theorem splitLines_of_data_two (s : String) (a b : List Char)
    (hs : s.data = a ++ '\n' :: b) (ha : '\n' ∉ a) (hb : '\n' ∉ b) :
    splitLines s = [String.mk a, String.mk b] := by
  unfold splitLines
  rw [hs, splitLinesList_append_nl a b ha, splitLinesList_no_nl b hb]
  rfl

theorem splitLines_of_data_three (s : String) (a b c : List Char)
    (hs : s.data = a ++ '\n' :: (b ++ '\n' :: c))
    (ha : '\n' ∉ a) (hb : '\n' ∉ b) (hc : '\n' ∉ c) :
    splitLines s = [String.mk a, String.mk b, String.mk c] := by
  unfold splitLines
  rw [hs, splitLinesList_append_nl _ _ ha, splitLinesList_append_nl _ _ hb,
    splitLinesList_no_nl c hc]
  rfl

theorem run_cons (t : Timer) (op : Op) (ops : List Op) :
    t.run (op :: ops)
      = ((((t.step op).1).run ops).1,
         (t.step op).2.1 :: (((t.step op).1).run ops).2.1,
         (t.step op).2.2 ++ (((t.step op).1).run ops).2.2) := rfl

theorem step_absState (t : Timer) (op : Op) :
    ((t.step op).1).absState = specStep t.absState op := by
  cases h : t.start_time with
  | none =>
    cases op <;>
      simp [Timer.step, Timer.start, Timer.measure, Timer.stop, Timer.click,
        Timer.restart, Timer.enter, Timer.exit, Timer.log, Timer.absState,
        specStep, h]
  | some st =>
    cases op <;>
      simp [Timer.step, Timer.start, Timer.measure, Timer.stop, Timer.click,
        Timer.restart, Timer.enter, Timer.exit, Timer.log, Timer.absState,
        specStep, h]

theorem run_absState (t : Timer) (ops : List Op) :
    ((t.run ops).1).absState = specRun t.absState ops := by
  induction ops generalizing t with
  | nil => rfl
  | cons op ops ih =>
    rw [run_cons]
    calc ((((t.step op).1).run ops).1).absState
        = specRun (((t.step op).1).absState) ops := ih _
      _ = specRun (specStep t.absState op) ops := by rw [step_absState]
      _ = specRun t.absState (op :: ops) := rfl

theorem absState_eq_stopped (t : Timer) :
    t.absState = SpecState.stopped ↔ t.start_time = Option.none := by
  cases h : t.start_time <;> simp [Timer.absState, h]

theorem step_recorded_ext (t : Timer) (op : Op) :
    ∃ d, (t.step op).1.recorded_times = t.recorded_times ++ d := by
  cases op with
  | start env m =>
    cases h : t.start_time <;>
      exact ⟨[], by simp [Timer.step, Timer.start, h]⟩
  | measure env p q =>
    cases h : t.start_time with
    | none => exact ⟨[], by simp [Timer.step, Timer.measure, Timer.click, h]⟩
    | some st =>
      exact ⟨[env.perf - st], by simp [Timer.step, Timer.measure, Timer.click, h]⟩
  | stop env p q =>
    cases h : t.start_time with
    | none => exact ⟨[], by simp [Timer.step, Timer.stop, Timer.click, h]⟩
    | some st =>
      exact ⟨[env.perf - st], by simp [Timer.step, Timer.stop, Timer.click, h]⟩
  | restart env1 env2 p q =>
    cases h : t.start_time with
    | none =>
      exact ⟨[], by simp [Timer.step, Timer.restart, Timer.stop, Timer.click, h]⟩
    | some st =>
      exact ⟨[env1.perf - st], by
        simp [Timer.step, Timer.restart, Timer.stop, Timer.click, Timer.start, h]⟩
  | log env m => exact ⟨[], by simp [Timer.step]⟩
  | enter env =>
    cases h : t.start_time <;>
      exact ⟨[], by simp [Timer.step, Timer.enter, Timer.start, h]⟩
  | exitOp env =>
    cases h : t.start_time with
    | none => exact ⟨[], by simp [Timer.step, Timer.exit, h]⟩
    | some st =>
      exact ⟨[env.perf - st], by simp [Timer.step, Timer.exit, Timer.stop, Timer.click, h]⟩

theorem run_recorded_ext (t : Timer) (ops : List Op) :
    ∃ d, (t.run ops).1.recorded_times = t.recorded_times ++ d := by
  induction ops generalizing t with
  | nil => exact ⟨[], by simp [Timer.run]⟩
  | cons op ops ih =>
    obtain ⟨d1, h1⟩ := step_recorded_ext t op
    obtain ⟨d2, h2⟩ := ih ((t.step op).1)
    refine ⟨d1 ++ d2, ?_⟩
    rw [run_cons]
    rw [h2, h1, List.append_assoc]

theorem run_measures_length (envs : List Env) (t : Timer) (st : ℚ)
    (h : t.start_time = some st) :
    ((t.run (envs.map fun e => Op.measure e .omitted .omitted)).1).recorded_times.length
      = t.recorded_times.length + envs.length := by
  induction envs generalizing t st with
  | nil => simp [Timer.run]
  | cons e es ih =>
    have hstep : (t.step (Op.measure e .omitted .omitted)).1
        = { t with
            start_time := some st
            recorded_times := t.recorded_times ++ [e.perf - st] } := by
      simp [Timer.step, Timer.measure, Timer.click, h]
    rw [List.map_cons, run_cons, hstep, ih _ st (by simp)]
    simp
    omega

theorem string_ext2 {s t : String} (h : s.data = t.data) : s = t := by
  rw [← string_mk_data s, ← string_mk_data t, h]

theorem string_empty_append (s : String) : "" ++ s = s :=
  string_ext2 (by simp [string_data_append])

theorem string_append_ne_empty_left (s t : String) (h : s.data ≠ []) :
    s ++ t ≠ "" := by
  apply string_ne_empty_of_data
  rw [string_data_append]
  intro hc
  exact h (List.append_eq_nil.mp hc).1

theorem newline_data : ("\n" : String).data = ['\n'] := rfl

theorem colon_nl_data : (":\n" : String).data = [':', '\n'] := rfl

theorem colon_data : (":" : String).data = [':'] := rfl

theorem optStrTruthy_none : optStrTruthy Option.none = false := rfl

theorem optStrTruthy_some_eq (s : String) :
    optStrTruthy (some s) = (s != "") := rfl

theorem stop_ok_lines (t : Timer) (env : Env) (st : ℚ) (p q2 : TimerMessage)
    (h : t.start_time = some st) (hl : t.logger = true) :
    (t.stop env p q2).2
      = .ok (env.perf - st,
          splitLines (t.getLoggingMessage (env.perf - st) p q2 env)) := by
  simp [Timer.stop, Timer.click, Timer.log, Timer.getLoggingMessage, h, hl]

theorem stopLines_end_marker (t : Timer) (env : Env) (st : ℚ)
    (h : t.start_time = some st) (hl : t.logger = true)
    (hbody : '\n' ∉ (t.message.format (env.perf - st)).data)
    (hts : '\n' ∉ env.nowIsoSec.data) :
    (t.stop env (.defaultM .END) .omitted).2
      = .ok (env.perf - st,
          ["END: " ++ env.nowIsoSec, t.message.format (env.perf - st)]) := by
  rw [stop_ok_lines t env st _ _ h hl]
  have hne : ("END: " ++ env.nowIsoSec) ≠ "" :=
    string_append_ne_empty_left _ _ (by decide)
  have hM : t.getLoggingMessage (env.perf - st) (.defaultM .END) .omitted env
      = (("END: " ++ env.nowIsoSec) ++ "\n")
        ++ t.message.format (env.perf - st) := by
    simp [Timer.getLoggingMessage, TimerMessage.resolve, timestampToMsg,
      optStrTruthy_none, optStrTruthy_some_eq, bne_iff_ne, hne]
  rw [hM, splitLines_of_data_two _ ("END: " ++ env.nowIsoSec).data
    (t.message.format (env.perf - st)).data
    (by simp [string_data_append, newline_data])
    (by simp [string_data_append]; exact hts)
    hbody]

theorem stopLines_literal (t : Timer) (env : Env) (st : ℚ) (s : String)
    (h : t.start_time = some st) (hl : t.logger = true)
    (hbody : '\n' ∉ (t.message.format (env.perf - st)).data)
    (hs0 : s ≠ "") (hsnl : '\n' ∉ s.data) :
    (t.stop env (.literal s) .omitted).2
      = .ok (env.perf - st, [s, t.message.format (env.perf - st)]) := by
  rw [stop_ok_lines t env st _ _ h hl]
  have hM : t.getLoggingMessage (env.perf - st) (.literal s) .omitted env
      = (s ++ "\n") ++ t.message.format (env.perf - st) := by
    simp [Timer.getLoggingMessage, TimerMessage.resolve, optStrTruthy_none,
      optStrTruthy_some_eq, bne_iff_ne, hs0]
  rw [hM, splitLines_of_data_two _ s.data (t.message.format (env.perf - st)).data
    (by simp [string_data_append, newline_data]) hsnl hbody]

theorem stopLines_name_fallback (t : Timer) (env : Env) (st : ℚ) (n : String)
    (h : t.start_time = some st) (hl : t.logger = true)
    (hbody : '\n' ∉ (t.message.format (env.perf - st)).data)
    (hn : t.name = some n) (hn0 : n ≠ "") (hnnl : '\n' ∉ n.data) :
    (t.stop env .omitted .omitted).2
      = .ok (env.perf - st, [n ++ ":", t.message.format (env.perf - st)]) := by
  rw [stop_ok_lines t env st _ _ h hl]
  have hM : t.getLoggingMessage (env.perf - st) .omitted .omitted env
      = (n ++ ":\n") ++ t.message.format (env.perf - st) := by
    simp [Timer.getLoggingMessage, TimerMessage.resolve, optStrTruthy_none,
      optStrTruthy_some_eq, bne_iff_ne, hn, hn0]
  rw [hM, splitLines_of_data_two _ (n ++ ":").data
    (t.message.format (env.perf - st)).data
    (by simp [string_data_append, colon_nl_data, colon_data])
    (by simp [string_data_append, colon_data]; exact hnnl)
    hbody]

theorem stopLines_no_leading (t : Timer) (env : Env) (st : ℚ)
    (h : t.start_time = some st) (hl : t.logger = true)
    (hbody : '\n' ∉ (t.message.format (env.perf - st)).data)
    (hnf : optStrTruthy t.name = false) :
    (t.stop env .omitted .omitted).2
      = .ok (env.perf - st, [t.message.format (env.perf - st)]) := by
  rw [stop_ok_lines t env st _ _ h hl]
  have hM : t.getLoggingMessage (env.perf - st) .omitted .omitted env
      = "" ++ t.message.format (env.perf - st) := by
    simp [Timer.getLoggingMessage, TimerMessage.resolve, optStrTruthy_none, hnf]
  rw [hM, string_empty_append, splitLines_no_nl _ hbody]

theorem stopLines_post_literal (t : Timer) (env : Env) (st : ℚ) (s : String)
    (h : t.start_time = some st) (hl : t.logger = true)
    (hbody : '\n' ∉ (t.message.format (env.perf - st)).data)
    (hnf : optStrTruthy t.name = false)
    (hs0 : s ≠ "") (hsnl : '\n' ∉ s.data) :
    (t.stop env .omitted (.literal s)).2
      = .ok (env.perf - st, [t.message.format (env.perf - st), s]) := by
  rw [stop_ok_lines t env st _ _ h hl]
  have hM : t.getLoggingMessage (env.perf - st) .omitted (.literal s) env
      = (("" ++ t.message.format (env.perf - st)) ++ "\n") ++ s := by
    simp [Timer.getLoggingMessage, TimerMessage.resolve, optStrTruthy_none,
      optStrTruthy_some_eq, bne_iff_ne, hnf, hs0]
  rw [hM, string_empty_append, splitLines_of_data_two _
    (t.message.format (env.perf - st)).data s.data
    (by simp [string_data_append, newline_data]) hbody hsnl]

theorem stopLines_multiline (t : Timer) (env : Env) (st : ℚ) (a b : String)
    (h : t.start_time = some st) (hl : t.logger = true)
    (hbody : '\n' ∉ (t.message.format (env.perf - st)).data)
    (hanl : '\n' ∉ a.data) (hbnl : '\n' ∉ b.data) :
    (t.stop env (.literal (a ++ "\n" ++ b)) .omitted).2
      = .ok (env.perf - st, [a, b, t.message.format (env.perf - st)]) := by
  rw [stop_ok_lines t env st _ _ h hl]
  have hpre : (a ++ "\n" ++ b) ≠ "" := by
    apply string_append_ne_empty_left
    simp [string_data_append, newline_data]
  have hM : t.getLoggingMessage (env.perf - st)
        (.literal (a ++ "\n" ++ b)) .omitted env
      = ((a ++ "\n" ++ b) ++ "\n") ++ t.message.format (env.perf - st) := by
    simp [Timer.getLoggingMessage, TimerMessage.resolve, optStrTruthy_none,
      optStrTruthy_some_eq, bne_iff_ne, hpre]
  rw [hM, splitLines_of_data_three _ a.data b.data
    (t.message.format (env.perf - st)).data
    (by simp [string_data_append, newline_data]) hanl hbnl hbody]

/-! ## Claim theorems -/

/-- C1 counterexample: the claim "mutating the value returned by `times`
leaves the internal `recorded_times` storage of the timer unchanged" is
false. With one list object (identity 0, contents `[]`) stored in the
`recorded_times` field, appending `1` through the object returned by
`times` changes the contents seen through the internal field. -/
theorem times_alias_counterexample :
    Alias.Heap.appendAt (fun _ => []) (Alias.TimerRef.times ⟨0⟩) 1
        (Alias.TimerRef.recorded_times ⟨0⟩)
      ≠ (fun _ => ([] : List ℚ)) (Alias.TimerRef.recorded_times ⟨0⟩) := by
  simp [Alias.Heap.appendAt, Alias.TimerRef.times]

/-- C1 (amended): `times` returns the internal `recorded_times` of the timer, the
list object itself — the very same reference, not a copy or read-only view —
so an in-place mutation through the returned value is visible through the
internal storage of the timer (appending `x` leaves the internal contents equal
to the old contents followed by `x`). -/
theorem times_returns_internal_list (h : Alias.Heap) (t : Alias.TimerRef) (x : ℚ) :
    Alias.TimerRef.times t = t.recorded_times ∧
    Alias.Heap.appendAt h (Alias.TimerRef.times t) x t.recorded_times
      = h t.recorded_times ++ [x] := by
  constructor
  · rfl
  · simp [Alias.Heap.appendAt, Alias.TimerRef.times]

/-- C2: `start` fails with `TimerAlreadyRunningError` exactly when the timer
is RUNNING (`start_time ≠ None`); `measure` and `stop` fail with
`TimerNotRunningError` carrying actions `measure` and `stop` respectively
exactly when the timer is STOPPED (`start_time = None`); and a failing call
returns the timer with every field exactly as it was. -/
theorem start_stop_measure_error_iff (t : Timer) (env : Env)
    (m msg_pre msg_post : TimerMessage) :
    ((∃ e, (t.start env m).2 = .error e) ↔ t.start_time ≠ Option.none) ∧
    (t.start_time ≠ Option.none →
      t.start env m = (t, .error (.alreadyRunning t.timerName env.nowIso))) ∧
    ((∃ e, (t.measure env msg_pre msg_post).2 = .error e) ↔
      t.start_time = Option.none) ∧
    (t.start_time = Option.none →
      t.measure env msg_pre msg_post
        = (t, .error (.notRunning t.timerName env.nowIso Action.measure))) ∧
    ((∃ e, (t.stop env msg_pre msg_post).2 = .error e) ↔
      t.start_time = Option.none) ∧
    (t.start_time = Option.none →
      t.stop env msg_pre msg_post
        = (t, .error (.notRunning t.timerName env.nowIso Action.stop))) := by
  cases h : t.start_time with
  | none =>
    refine ⟨?_, ?_, ?_, ?_, ?_, ?_⟩ <;>
      simp [Timer.start, Timer.measure, Timer.stop, Timer.click, h]
  | some st =>
    refine ⟨?_, ?_, ?_, ?_, ?_, ?_⟩ <;>
      simp [Timer.start, Timer.measure, Timer.stop, Timer.click, h]

/-- Witness for C2 at a concrete RUNNING timer (for `start`) and a concrete
STOPPED timer (for `measure` and `stop`). -/
theorem start_stop_measure_error_iff_witness :
    Timer.start { start_time := some 0 } ⟨1, "T", "Ts"⟩ .omitted
      = ({ start_time := some 0 }, .error (.alreadyRunning "Unnamed Timer" "T")) ∧
    Timer.measure {} ⟨1, "T", "Ts"⟩ .omitted .omitted
      = ({}, .error (.notRunning "Unnamed Timer" "T" Action.measure)) ∧
    Timer.stop {} ⟨1, "T", "Ts"⟩ .omitted .omitted
      = ({}, .error (.notRunning "Unnamed Timer" "T" Action.stop)) :=
  ⟨(start_stop_measure_error_iff { start_time := some 0 } ⟨1, "T", "Ts"⟩
      .omitted .omitted .omitted).2.1 (by simp),
   (start_stop_measure_error_iff {} ⟨1, "T", "Ts"⟩
      .omitted .omitted .omitted).2.2.2.1 rfl,
   (start_stop_measure_error_iff {} ⟨1, "T", "Ts"⟩
      .omitted .omitted .omitted).2.2.2.2.2 rfl⟩

/-- C9 counterexample: the claimed rendered message
`"[<timestamp>] Tried to click '<action>' on <timer-name> but it wasn\x27t
running."` (single quotes around the action) does not match the code, which
wraps the action in backticks (timer.py:45). -/
theorem notRunning_quote_counterexample :
    (Timer.stop {} ⟨0, "T0", "T0s"⟩ .omitted .omitted).2
      = .error (.notRunning "Unnamed Timer" "T0" Action.stop) ∧
    (TimerError.notRunning "Unnamed Timer" "T0" Action.stop).message
      = "[T0] Tried to click `stop` on Unnamed Timer but it wasn\x27t running." ∧
    (TimerError.notRunning "Unnamed Timer" "T0" Action.stop).message
      ≠ "[T0] Tried to click \x27stop\x27 on Unnamed Timer but it wasn\x27t running." := by
  refine ⟨rfl, rfl, ?_⟩
  decide

/-- C9 (amended): for every STOPPED timer, `measure`/`stop` raise
`TimerNotRunningError` carrying the attempted action, and the rendered
message is `"[<timestamp>] Tried to click `<action>` on <timer-name> but it
wasn\x27t running."` — the action wrapped in backticks, `<timestamp>` the
ISO-8601 time of the failure, and `<timer-name>` the rendered timer name. -/
theorem notRunning_message_correct (t : Timer) (env : Env)
    (msg_pre msg_post : TimerMessage) (h : t.start_time = Option.none) :
    (t.measure env msg_pre msg_post).2
      = .error (.notRunning t.timerName env.nowIso Action.measure) ∧
    (t.stop env msg_pre msg_post).2
      = .error (.notRunning t.timerName env.nowIso Action.stop) ∧
    ∀ a ts n, (TimerError.notRunning n ts a).message
      = "[" ++ ts ++ "] Tried to click `" ++ a.render ++ "` on " ++ n
        ++ " but it wasn\x27t running." := by
  refine ⟨?_, ?_, fun a ts n => rfl⟩ <;>
    simp [Timer.measure, Timer.stop, Timer.click, h]

/-- Witness for C9 (amended) at a concrete stopped timer. -/
theorem notRunning_message_correct_witness :
    (Timer.measure {} ⟨0, "T0", "T0s"⟩ .omitted .omitted).2
      = .error (.notRunning "Unnamed Timer" "T0" Action.measure) :=
  (notRunning_message_correct {} ⟨0, "T0", "T0s"⟩ .omitted .omitted rfl).1

/-- C4: for every operation sequence (`start`, `measure`, `stop`, `restart`,
`log`, scoped enter/exit), `start_time` is `None` exactly when the abstract
state machine of the spec, run over the same sequence, is in the STOPPED state;
moreover a successful `start` establishes a non-None `start_time`
(`perf_counter()` reading), a successful `stop` clears it to `None`, and
`measure` always leaves it unchanged. -/
theorem start_time_none_iff_stopped (t : Timer) (ops : List Op) (env : Env)
    (m msg_pre msg_post : TimerMessage) :
    ((t.run ops).1.start_time = Option.none
      ↔ specRun t.absState ops = SpecState.stopped) ∧
    (∀ t1 r, t.start env m = (t1, .ok r) → t1.start_time = some env.perf) ∧
    (∀ t1 r, t.stop env msg_pre msg_post = (t1, .ok r) →
      t1.start_time = Option.none) ∧
    (t.measure env msg_pre msg_post).1.start_time = t.start_time := by
  refine ⟨?_, ?_, ?_, ?_⟩
  · rw [← run_absState]
    exact (absState_eq_stopped _).symm
  · intro t1 r hEq
    cases h : t.start_time with
    | none =>
      simp [Timer.start, h] at hEq
      rw [← hEq.1]
    | some st => simp [Timer.start, h] at hEq
  · intro t1 r hEq
    cases h : t.start_time with
    | none => simp [Timer.stop, Timer.click, h] at hEq
    | some st =>
      simp [Timer.stop, Timer.click, h] at hEq
      rw [← hEq.1]
  · cases h : t.start_time <;> simp [Timer.measure, Timer.click, h]

/-- Witness for C4: from a fresh timer, `start` then `stop` ends with
`start_time = None`, via the spec machine ending STOPPED. -/
theorem start_time_none_iff_stopped_witness :
    ((Timer.run {} [Op.start ⟨1, "T", "Ts"⟩ .omitted,
        Op.stop ⟨2, "T", "Ts"⟩ .omitted .omitted]).1).start_time
      = Option.none :=
  ((start_time_none_iff_stopped {}
      [Op.start ⟨1, "T", "Ts"⟩ .omitted, Op.stop ⟨2, "T", "Ts"⟩ .omitted .omitted]
      ⟨1, "T", "Ts"⟩ .omitted .omitted .omitted).1).mpr (by decide)

/-- C5: `recorded_times` only grows — every operation sequence extends it on
the right (no removal or reordering); a successful `measure`/`stop` appends
exactly one element (the elapsed time); and after `N` successful `measure`
clicks on one running session starting with no samples, `times` has length
`N`. -/
theorem recorded_times_only_grows (t : Timer) (ops : List Op) (env : Env)
    (msg_pre msg_post : TimerMessage) (envs : List Env) :
    (∃ d, (t.run ops).1.recorded_times = t.recorded_times ++ d) ∧
    (∀ st, t.start_time = some st →
      (t.measure env msg_pre msg_post).1.recorded_times
        = t.recorded_times ++ [env.perf - st] ∧
      (t.stop env msg_pre msg_post).1.recorded_times
        = t.recorded_times ++ [env.perf - st]) ∧
    (∀ st, t.start_time = some st → t.recorded_times = [] →
      ((t.run (envs.map fun e => Op.measure e .omitted .omitted)).1).times.length
        = envs.length) := by
  refine ⟨run_recorded_ext t ops, ?_, ?_⟩
  · intro st h
    constructor <;> simp [Timer.measure, Timer.stop, Timer.click, h]
  · intro st h h0
    have := run_measures_length envs t st h
    simpa [Timer.times, h0] using this

/-- Witness for C5: one `measure` on a freshly started timer appends exactly
one sample, and two `measure` clicks give `times` of length 2. -/
theorem recorded_times_only_grows_witness :
    (Timer.measure { start_time := some 0 } ⟨1, "T", "Ts"⟩ .omitted
        .omitted).1.recorded_times = [1] ∧
    ((Timer.run { start_time := some 0 }
        ([⟨1, "T", "Ts"⟩, ⟨2, "T", "Ts"⟩].map
          fun e => Op.measure e .omitted .omitted)).1).times.length = 2 := by
  constructor
  · have := ((recorded_times_only_grows { start_time := some 0 } []
        ⟨1, "T", "Ts"⟩ .omitted .omitted []).2.1 0 rfl).1
    simpa using this
  · exact (recorded_times_only_grows { start_time := some 0 } []
      ⟨1, "T", "Ts"⟩ .omitted .omitted [⟨1, "T", "Ts"⟩, ⟨2, "T", "Ts"⟩]).2.2 0 rfl rfl

theorem exit_start_time (t : Timer) (env : Env) :
    ((t.exit env).1).start_time = Option.none := by
  cases h : t.start_time <;>
    simp [Timer.exit, Timer.stop, Timer.click, h]

/-- C6: on a RUNNING timer, `restart(pre, post)` is `stop(pre, post)`
followed immediately by `start()`: the stop half appends exactly one sample
and logs both messages, the start half succeeds with no message and no
lines, and `restart` returns `self` — its post-state — now RUNNING from the
second clock reading. On a STOPPED timer, `restart` fails exactly as `stop`
does, with the state unchanged. -/
theorem restart_eq_stop_then_start (t : Timer) (env1 env2 : Env)
    (msg_pre msg_post : TimerMessage) :
    (t.start_time = Option.none →
      t.restart env1 env2 msg_pre msg_post
        = (t, .error (.notRunning t.timerName env1.nowIso Action.stop)) ∧
      t.stop env1 msg_pre msg_post
        = (t, .error (.notRunning t.timerName env1.nowIso Action.stop))) ∧
    (∀ st, t.start_time = some st →
      ∃ tStopped t2 stopLines,
        t.stop env1 msg_pre msg_post
          = (tStopped, .ok (env1.perf - st, stopLines)) ∧
        tStopped.start env2 .omitted = (t2, .ok (t2, [])) ∧
        t.restart env1 env2 msg_pre msg_post = (t2, .ok (t2, stopLines)) ∧
        t2.start_time = some env2.perf ∧
        t2.recorded_times = t.recorded_times ++ [env1.perf - st]) := by
  constructor
  · intro h
    constructor <;> simp [Timer.restart, Timer.stop, Timer.click, h]
  · intro st h
    refine ⟨{ t with
        start_time := Option.none
        recorded_times := t.recorded_times ++ [env1.perf - st] },
      { t with
        start_time := some env2.perf
        recorded_times := t.recorded_times ++ [env1.perf - st] },
      ?_, ?_, ?_, ?_, ?_, ?_⟩
    · exact if t.logger then
        Timer.log { t with
            start_time := Option.none
            recorded_times := t.recorded_times ++ [env1.perf - st] } env1
          (.literal (Timer.getLoggingMessage { t with
              start_time := Option.none
              recorded_times := t.recorded_times ++ [env1.perf - st] }
            (env1.perf - st) msg_pre msg_post env1))
      else []
    · simp [Timer.stop, Timer.click, h]
    · simp [Timer.start, TimerMessage.truthy]
    · simp [Timer.restart, Timer.stop, Timer.click, Timer.start,
        TimerMessage.truthy, h]
    · rfl
    · rfl

/-- Witness for C6 at a concrete running timer without a logger: `restart`
ends RUNNING from the second clock reading with one appended sample. -/
theorem restart_eq_stop_then_start_witness :
    ((Timer.restart { logger := false, start_time := some 0 }
        ⟨1, "A", "As"⟩ ⟨2, "B", "Bs"⟩ .omitted .omitted).1).start_time
      = some 2 ∧
    ((Timer.restart { logger := false, start_time := some 0 }
        ⟨1, "A", "As"⟩ ⟨2, "B", "Bs"⟩ .omitted .omitted).1).recorded_times
      = [1] := by
  obtain ⟨tS, t2, L, h1, h2, h3, h4, h5⟩ :=
    (restart_eq_stop_then_start { logger := false, start_time := some 0 }
      ⟨1, "A", "As"⟩ ⟨2, "B", "Bs"⟩ .omitted .omitted).2 0 rfl
  constructor
  · rw [h3]
    exact h4
  · rw [h3]
    simpa using h5

/-- C3: for a block entered via the context manager (entry is `start()` with
no message), on every exit path the exception of the block — if any — propagates
unchanged, the timer ends STOPPED, and: if the block left the timer RUNNING,
exit stops it exactly once, appending exactly one new sample; if the block
already stopped the timer, exit changes nothing and logs nothing. -/
theorem scoped_stops_exactly_once {ε : Type} (t : Timer) (envE envX : Env)
    (block : Timer → Timer × Option ε) (h : t.start_time = Option.none) :
    t.scoped envE envX block
      = (((block ((t.start envE .omitted).1)).1.exit envX).1,
         .ok ((block ((t.start envE .omitted).1)).2,
              ((block ((t.start envE .omitted).1)).1.exit envX).2)) ∧
    ((t.scoped envE envX block).1).start_time = Option.none ∧
    (∀ st, ((block ((t.start envE .omitted).1)).1).start_time = some st →
      ((t.scoped envE envX block).1).recorded_times
        = ((block ((t.start envE .omitted).1)).1).recorded_times
          ++ [envX.perf - st]) ∧
    (((block ((t.start envE .omitted).1)).1).start_time = Option.none →
      (t.scoped envE envX block).1 = (block ((t.start envE .omitted).1)).1 ∧
      ((block ((t.start envE .omitted).1)).1.exit envX).2 = []) := by
  have hEq : t.scoped envE envX block
      = (((block ((t.start envE .omitted).1)).1.exit envX).1,
         .ok ((block ((t.start envE .omitted).1)).2,
              ((block ((t.start envE .omitted).1)).1.exit envX).2)) := by
    simp [Timer.scoped, Timer.enter, Timer.start, h, TimerMessage.truthy]
  refine ⟨hEq, ?_, ?_, ?_⟩
  · rw [hEq]
    exact exit_start_time _ _
  · intro st hst
    rw [hEq]
    simp [Timer.exit, Timer.stop, Timer.click, hst]
  · intro hst
    rw [hEq]
    simp [Timer.exit, hst]

/-- Witness for C3: a block that leaves the timer running and raises — the
exception survives, the timer ends STOPPED with one appended sample. -/
theorem scoped_stops_exactly_once_witness :
    (Timer.scoped { logger := false } ⟨0, "A", "As"⟩ ⟨5, "B", "Bs"⟩
        (fun u => (u, some 0))).2 = .ok (some 0, []) ∧
    ((Timer.scoped { logger := false } ⟨0, "A", "As"⟩ ⟨5, "B", "Bs"⟩
        (fun u => (u, some 0))).1).start_time = Option.none ∧
    ((Timer.scoped { logger := false } ⟨0, "A", "As"⟩ ⟨5, "B", "Bs"⟩
        (fun u => (u, some (0 : ℕ)))).1).recorded_times = [5] := by
  have H := scoped_stops_exactly_once (ε := ℕ) { logger := false }
    ⟨0, "A", "As"⟩ ⟨5, "B", "Bs"⟩ (fun u => (u, some 0)) rfl
  refine ⟨?_, H.2.1, ?_⟩
  · rw [H.1]
    rfl
  · have := H.2.2.1 0 rfl
    simpa using this

theorem step_noLogger (t : Timer) (op : Op) :
    Timer.step { t with logger := false } op
      = ({ (t.step op).1 with logger := false }, (t.step op).2.1, []) := by
  cases h : t.start_time with
  | none =>
    cases op <;>
      simp [Timer.step, Timer.start, Timer.measure, Timer.stop, Timer.click,
        Timer.restart, Timer.enter, Timer.exit, Timer.log, Timer.timerName, h]
  | some st =>
    cases op <;>
      simp [Timer.step, Timer.start, Timer.measure, Timer.stop, Timer.click,
        Timer.restart, Timer.enter, Timer.exit, Timer.log, Timer.timerName, h]

theorem run_noLogger (t : Timer) (ops : List Op) :
    Timer.run { t with logger := false } ops
      = ({ (Timer.run t ops).1 with logger := false },
         (Timer.run t ops).2.1, []) := by
  induction ops generalizing t with
  | nil => rfl
  | cons op ops ih =>
    rw [run_cons, run_cons, step_noLogger, ih ((t.step op).1)]
    simp

/-- C7: the logging sink never influences behaviour — running any operation
sequence with no logger produces the same `start_time`, the same
`recorded_times`, and the same per-call results (returned values and
errors) as running it with a logger on the same clock readings, and emits
no lines at all. -/
theorem logger_none_same_state_no_lines (t : Timer) (ops : List Op) :
    (Timer.run { t with logger := false } ops).1.start_time
      = (Timer.run t ops).1.start_time ∧
    (Timer.run { t with logger := false } ops).1.recorded_times
      = (Timer.run t ops).1.recorded_times ∧
    (Timer.run { t with logger := false } ops).2.1 = (Timer.run t ops).2.1 ∧
    (Timer.run { t with logger := false } ops).2.2 = [] := by
  rw [run_noLogger]
  exact ⟨rfl, rfl, rfl, rfl⟩

/-- C8 counterexample: the claim "with a literal string pre-message the
string is used verbatim as the leading line" fails for the empty literal:
Python truthiness (`if msg_pre:` at timer.py:120) treats `""` as absent, so
a named timer falls back to the `"<name>:"` leading line instead of the
verbatim (empty) literal. -/
theorem empty_literal_pre_not_verbatim :
    (Timer.stop { name := some "x", start_time := some 0 } ⟨1, "T", "Ts"⟩
        (.literal "") .omitted).2
      = .ok (1, ["x:", "Elapsed time: 1.0000 seconds."]) ∧
    ("x:" : String) ≠ "" := by
  refine ⟨?_, by decide⟩
  have e : (⟨1, "T", "Ts"⟩ : Env).perf - (0 : ℚ) = 1 := by
    show (1 : ℚ) - 0 = 1
    norm_num
  have hfl : ⌊((1 : ℚ) * 10000 + 1 / 2)⌋ = 10000 := by norm_num
  have hb : ({ name := some "x", start_time := some 0 } : Timer).message.format 1
      = "Elapsed time: 1.0000 seconds." := by
    show defaultTemplate.format 1 = _
    simp only [Template.format, defaultTemplate, formatFixed4, hfl]
    decide
  have hx : (("x" : String) != "") = true := by decide
  rw [stop_ok_lines { name := some "x", start_time := some 0 } ⟨1, "T", "Ts"⟩ 0
    (.literal "") .omitted rfl rfl]
  have hM : Timer.getLoggingMessage { name := some "x", start_time := some 0 }
      ((⟨1, "T", "Ts"⟩ : Env).perf - 0) (.literal "") .omitted ⟨1, "T", "Ts"⟩
      = ("x" ++ ":\n")
        ++ ({ name := some "x", start_time := some 0 } : Timer).message.format
          ((⟨1, "T", "Ts"⟩ : Env).perf - 0) := by
    simp [Timer.getLoggingMessage, TimerMessage.resolve, optStrTruthy_some_eq,
      optStrTruthy_none, hx]
  rw [hM, e, hb]
  rfl

/-- C8 (amended): for every RUNNING timer with a logger (elapsed value
`env.perf - st`, body line `message.format` of it, assumed single-line),
`stop` emits exactly, in order and one logger invocation per line: with the
END default-marker pre-message, `"END: <timestamp>"` then the body; with a
NONEMPTY single-line literal pre-message, the literal verbatim then the
body (an empty literal is treated as absent, by Python truthiness); with
pre-message absent, `"<name>:"` then the body when the timer has a truthy
name, else the body alone; a post-message resolves the same way and its
line trails the body, with no line when absent; a literal with an embedded
newline is split into separate logger invocations in order. -/
theorem stop_logging_policy (t : Timer) (env : Env) (st : ℚ)
    (h : t.start_time = some st) (hl : t.logger = true)
    (hbody : '\n' ∉ (t.message.format (env.perf - st)).data) :
    ('\n' ∉ env.nowIsoSec.data →
      (t.stop env (.defaultM .END) .omitted).2
        = .ok (env.perf - st,
            ["END: " ++ env.nowIsoSec, t.message.format (env.perf - st)])) ∧
    (∀ s : String, s ≠ "" → '\n' ∉ s.data →
      (t.stop env (.literal s) .omitted).2
        = .ok (env.perf - st, [s, t.message.format (env.perf - st)])) ∧
    (∀ n : String, t.name = some n → n ≠ "" → '\n' ∉ n.data →
      (t.stop env .omitted .omitted).2
        = .ok (env.perf - st, [n ++ ":", t.message.format (env.perf - st)])) ∧
    (optStrTruthy t.name = false →
      (t.stop env .omitted .omitted).2
        = .ok (env.perf - st, [t.message.format (env.perf - st)])) ∧
    (∀ s : String, optStrTruthy t.name = false → s ≠ "" → '\n' ∉ s.data →
      (t.stop env .omitted (.literal s)).2
        = .ok (env.perf - st, [t.message.format (env.perf - st), s])) ∧
    (∀ a b : String, '\n' ∉ a.data → '\n' ∉ b.data →
      (t.stop env (.literal (a ++ "\n" ++ b)) .omitted).2
        = .ok (env.perf - st, [a, b, t.message.format (env.perf - st)])) :=
  ⟨stopLines_end_marker t env st h hl hbody,
   fun s hs0 hsnl => stopLines_literal t env st s h hl hbody hs0 hsnl,
   fun n hn hn0 hnnl => stopLines_name_fallback t env st n h hl hbody hn hn0 hnnl,
   stopLines_no_leading t env st h hl hbody,
   fun s hnf hs0 hsnl => stopLines_post_literal t env st s h hl hbody hnf hs0 hsnl,
   fun a b hanl hbnl => stopLines_multiline t env st a b h hl hbody hanl hbnl⟩

/-- Witness for C8 (amended): concrete END-marker stop and concrete
name-fallback stop with the default template. -/
theorem stop_logging_policy_witness :
    (Timer.stop { start_time := some 0 } ⟨1, "T", "Ts"⟩
        (.defaultM .END) .omitted).2
      = .ok (1, ["END: Ts", "Elapsed time: 1.0000 seconds."]) ∧
    (Timer.stop { name := some "x", start_time := some 0 } ⟨1, "T", "Ts"⟩
        .omitted .omitted).2
      = .ok (1, ["x:", "Elapsed time: 1.0000 seconds."]) := by
  have e : (⟨1, "T", "Ts"⟩ : Env).perf - (0 : ℚ) = 1 := by
    show (1 : ℚ) - 0 = 1
    norm_num
  have hfl : ⌊((1 : ℚ) * 10000 + 1 / 2)⌋ = 10000 := by norm_num
  have hb1 : ({ start_time := some 0 } : Timer).message.format 1
      = "Elapsed time: 1.0000 seconds." := by
    show defaultTemplate.format 1 = _
    simp only [Template.format, defaultTemplate, formatFixed4, hfl]
    decide
  have hb2 : ({ name := some "x", start_time := some 0 } : Timer).message.format 1
      = "Elapsed time: 1.0000 seconds." := by
    show defaultTemplate.format 1 = _
    simp only [Template.format, defaultTemplate, formatFixed4, hfl]
    decide
  constructor
  · have H := (stop_logging_policy { start_time := some 0 } ⟨1, "T", "Ts"⟩ 0
      rfl rfl (by rw [e, hb1]; decide)).1 (by decide)
    rw [H, e, hb1]
    rfl
  · have H := (stop_logging_policy { name := some "x", start_time := some 0 }
      ⟨1, "T", "Ts"⟩ 0 rfl rfl (by rw [e, hb2]; decide)).2.2.1 "x" rfl
      (by decide) (by decide)
    rw [H, e, hb2]
    rfl

/-- C10: entering the timer as a scoped block binds the `as` target to
`None`: `__enter__` starts the timer but returns nothing, even though
`start` itself returns the timer for chaining. -/
theorem enter_binds_none (t : Timer) (env : Env)
    (h : t.start_time = Option.none) :
    t.start env .omitted
      = ({ t with start_time := some env.perf },
         .ok ({ t with start_time := some env.perf }, [])) ∧
    t.enter env
      = ({ t with start_time := some env.perf }, .ok (Option.none, [])) := by
  constructor <;> simp [Timer.start, Timer.enter, h, TimerMessage.truthy]

/-- Witness for C10 at a concrete stopped timer. -/
theorem enter_binds_none_witness :
    Timer.enter {} ⟨2, "T", "Ts"⟩
      = ({ start_time := some 2 }, .ok (Option.none, [])) :=
  (enter_binds_none {} ⟨2, "T", "Ts"⟩ rfl).2

end Thyming
